import Mathlib

/-!
# Verification of the NF-e XML extraction pipeline

A shallow embedding of `src/nfe_parser.py` (class `NFEParser`): the document
extractor `parse_xml_file`, the helper `_get_text`, and the batch aggregator
`process_folder`, together with theorems settling the frozen claims about the
natural-language specification of that module.

Modelling conventions:
* An lxml element is a tree node with a qualified tag string (namespaced tags
  are rendered `{uri}local`, exactly as lxml does), an attribute list, optional
  text, and a child list.
* `ElementPath` lookups `find('.//tag')` are first-match depth-unbounded
  descendant searches in document order, excluding the context node itself.
* Python exceptions are modelled with `Except String`; the message is the
  Python `str(e)` of the exception.
* `pandas` structures: the DataFrame built by `process_folder` is modelled as
  its list of row records; `pd.to_numeric(col, errors='coerce')` is modelled
  cellwise by a total numeric parser returning `Option Rat`, with `none` for
  the null (NaN) outcome.
-/

mutual
/-- An XML element as produced by `lxml.etree.parse`: qualified tag
(`{uri}local` when the element is in a namespace), attributes, text content
(`none` models lxml's `text is None`), and child elements in document order. -/
inductive Xml where
  | elem (tag : String) (attrs : List (String × String)) (text : Option String)
      (children : XmlList)

inductive XmlList where
  | nil
  | cons (x : Xml) (xs : XmlList)
end

def XmlList.ofList : List Xml → XmlList
  | [] => .nil
  | x :: xs => .cons x (XmlList.ofList xs)

/-- Convenience constructor: an element with children given as a `List`. -/
def xmlE (tag : String) (attrs : List (String × String)) (text : Option String)
    (children : List Xml) : Xml :=
  .elem tag attrs text (XmlList.ofList children)

def Xml.tag : Xml → String
  | .elem t _ _ _ => t

def Xml.attrs : Xml → List (String × String)
  | .elem _ a _ _ => a

def Xml.text : Xml → Option String
  | .elem _ _ tx _ => tx

def Xml.children : Xml → XmlList
  | .elem _ _ _ ch => ch

/-! ## Python string primitives

The Python string operations the parser uses are modelled on the character
list of the Lean string, so that every definition evaluates by kernel
reduction. -/

/-- Python `s.split(sep)` for a one-character separator: the maximal runs
between separator occurrences, empty runs included. -/
def splitChar (sep : Char) : List Char → List (List Char)
  | [] => [[]]
  | c :: cs =>
    match splitChar sep cs with
    | [] => [[]]
    | h :: t => if c = sep then [] :: h :: t else (c :: h) :: t

/-- Python `s.strip()`: leading and trailing whitespace removed. -/
def pyStrip (s : String) : String :=
  ⟨((s.data.dropWhile Char.isWhitespace).reverse.dropWhile
      Char.isWhitespace).reverse⟩

/-- Python `s.lower()` (the names fed to it here are ASCII file names). -/
def pyLower (s : String) : String := ⟨s.data.map Char.toLower⟩

/-- Python `s.startswith(p)`. -/
def pyBegins (s p : String) : Bool := p.data.isPrefixOf s.data

/-- Python `s.endswith(p)`. -/
def pyEnds (s p : String) : Bool := p.data.isSuffixOf s.data

/-- Python `s.replace('NFe', '')` (line 60): every non-overlapping occurrence
of the substring `NFe` removed, scanning left to right. -/
def removeNFe : List Char → List Char
  | 'N' :: 'F' :: 'e' :: rest => removeNFe rest
  | c :: rest => c :: removeNFe rest
  | [] => []

/-- String version of `removeNFe`. -/
def pyRemoveNFe (s : String) : String := ⟨removeNFe s.data⟩

mutual
/-- First element with the given (qualified) tag in a forest, in document
order: for each tree, its root is checked before its descendants (pre-order),
matching ElementPath's document-order semantics. -/
def findInForest (tag : String) : XmlList → Option Xml
  | .nil => none
  | .cons x xs =>
    match findInTree tag x with
    | some r => some r
    | none => findInForest tag xs

def findInTree (tag : String) : Xml → Option Xml
  | .elem t a tx ch =>
    if t = tag then some (.elem t a tx ch) else findInForest tag ch
end

/-- `parent.find('.//tag')` for a plain tag name: first matching descendant of
`parent` in document order, the context node itself excluded. -/
def findDesc (tag : String) (x : Xml) : Option Xml :=
  findInForest tag x.children

mutual
/-- Number of elements with the given tag in a forest, each subtree root
included; used for `len(nfe_info.findall('.//det'))`. -/
def countInForest (tag : String) : XmlList → Nat
  | .nil => 0
  | .cons x xs => countInTree tag x + countInForest tag xs

def countInTree (tag : String) : Xml → Nat
  | .elem t _ _ ch => (if t = tag then 1 else 0) + countInForest tag ch
end

/-- `len(nfe_info.findall('.//det'))`-style count: matching descendants of
`x`, the context node itself excluded. -/
def countDesc (tag : String) (x : Xml) : Nat :=
  countInForest tag x.children

/-- One step of the namespace-stripping loop body (`nfe_parser.py` lines
41-43): `if elem.tag.startswith('{'): elem.tag = elem.tag.split('}')[1]`.
Tags produced by the XML parser always contain a `}` when they start with
`{` (lxml renders namespaced tags as `{uri}local`), and on those this equals
Python's `split('}')[1]`. -/
def stripTag (t : String) : String :=
  if pyBegins t "\x7b" then ⟨(splitChar '}' t.data).getD 1 t.data⟩ else t

mutual
/-- The document-wide namespace stripping of `parse_xml_file` (lines 41-43):
every element's tag, the root included, has its `{uri}` prefix removed.
The Python code mutates the tree in place; the model returns the new tree. -/
def stripNs : Xml → Xml
  | .elem t a tx ch => .elem (stripTag t) a tx (stripNsForest ch)

def stripNsForest : XmlList → XmlList
  | .nil => .nil
  | .cons x xs => .cons (stripNs x) (stripNsForest xs)
end

mutual
/-- Qualify every tag of a document with the given namespace: the namespaced
twin of a namespace-free document (used to compare the two document forms the
spec describes). -/
def nsify (uri : String) : Xml → Xml
  | .elem t a tx ch => .elem ("\x7b" ++ uri ++ "\x7d" ++ t) a tx (nsifyForest uri ch)

def nsifyForest (uri : String) : XmlList → XmlList
  | .nil => .nil
  | .cons x xs => .cons (nsify uri x) (nsifyForest uri xs)
end

/-- The namespace URI in `NFEParser.NAMESPACES`. -/
def nfeNamespace : String := "http://www.portalfiscal.inf.br/nfe"

/-- The qualified tag that `root.find('.//nfe:infNFe', NAMESPACES)` searches
for after prefix resolution. -/
def nsTag (t : String) : String := "\x7b" ++ nfeNamespace ++ "\x7d" ++ t

/-- `os.path.basename`: the part of the path after the last `/`. -/
def basename (p : String) : String := ⟨(splitChar '/' p.data).getLastD []⟩

/-- `os.path.join(folder, name)` for a relative name on a POSIX system. -/
def joinPath (dir name : String) : String :=
  if pyEnds dir "/" then dir ++ name else dir ++ "/" ++ name

/-- Python's `a or b` on strings: `a` when `a` is non-empty, else `b`. -/
def pyOr (a b : String) : String := if a = "" then b else a

/-- `parent.find('.//' + tag)` as called by `_get_text`.  The call sites pass
either a plain tag name (`'nNF'`, ...) or a string that itself starts with
`'.//'` (`'.//vProd'`, ..., lines 72-77).  In the latter case the constructed
pattern is `'.//.//vProd'`: ElementPath tokenizes the second `//` followed by
`.`, and `prepare_descendant` raises `SyntaxError('invalid descendant')`
(identical code in lxml's `_elementpath.py` and CPython's `ElementPath.py`,
where single `.` is an operator token via the `[/.*:\x7b...]` class).  For a
plain tag the pattern selects the first matching descendant. -/
def findPath (parent : Xml) (tag : String) : Except String (Option Xml) :=
  if pyBegins tag ".//" then .error "invalid descendant"
  else .ok (findDesc tag parent)

/-- Lines 112-114 of `_get_text`: the stripped text of the found element when
its text is truthy (not `None`, not `''`), else the default `''`. -/
def elemTextOrEmpty : Option Xml → String
  | some e =>
    match e.text with
    | some t => if t = "" then "" else pyStrip t
    | none => ""
  | none => ""

/-- `NFEParser._get_text(parent, tag)` (lines 96-114): default `''` when the
parent is `None`; otherwise look up `f'.//{tag}'` (which may raise, see
`findPath`); return the stripped text when the element is found and its text
is truthy, else the default. -/
def getTextE (parent : Option Xml) (tag : String) : Except String String :=
  match parent with
  | none => .ok ""
  | some p => (findPath p tag).map elemTextOrEmpty

/-- The value `_get_text(parent, tag)` returns when the constructed pattern is
well-formed (every call site except the six monetary fields). -/
def getText (parent : Option Xml) (tag : String) : String :=
  match parent with
  | none => ""
  | some p => elemTextOrEmpty (findDesc tag p)

/-- The success-record fields of `parse_xml_file` (the dict of lines 55-86). -/
structure NfeData where
  arquivo : String
  numero_nf : String
  serie : String
  data_emissao : String
  chave_acesso : String
  emit_cnpj : String
  emit_nome : String
  emit_fantasia : String
  dest_cnpj : String
  dest_nome : String
  valor_produtos : String
  valor_desconto : String
  valor_frete : String
  valor_total : String
  valor_icms : String
  valor_ipi : String
  natureza_operacao : String
  tipo_operacao : String
  qtd_itens : Nat
deriving DecidableEq, Repr

/-- A row of the result: either the full success dict or the two-key error
dict `{'arquivo': ..., 'erro': ...}` of lines 91-94. -/
inductive Record where
  | ok (d : NfeData)
  | err (arquivo : String) (erro : String)
deriving DecidableEq, Repr

/-- The dict construction of `parse_xml_file` lines 49-86, with the block
lookups of lines 50-53 and Python's left-to-right evaluation of the dict
literal: an exception raised by any `_get_text` call aborts the construction
(and is caught by the surrounding `try`). -/
def buildData (path : String) (nfeInfo : Xml) : Except String NfeData := do
  let ide := findDesc "ide" nfeInfo
  let emit := findDesc "emit" nfeInfo
  let dest := findDesc "dest" nfeInfo
  let total := findDesc "total" nfeInfo
  let numero ← getTextE ide "nNF"
  let serie ← getTextE ide "serie"
  let dhEmi ← getTextE ide "dhEmi"
  let dEmi ← getTextE ide "dEmi"
  let chave := pyRemoveNFe ((nfeInfo.attrs.lookup "Id").getD "")
  let emitCnpj ← getTextE emit "CNPJ"
  let emitNome ← getTextE emit "xNome"
  let emitFant ← getTextE emit "xFant"
  let destCnpj ← getTextE dest "CNPJ"
  let destCpf ← getTextE dest "CPF"
  let destNome ← getTextE dest "xNome"
  let vProd ← getTextE total ".//vProd"
  let vDesc ← getTextE total ".//vDesc"
  let vFrete ← getTextE total ".//vFrete"
  let vNF ← getTextE total ".//vNF"
  let vICMS ← getTextE total ".//vICMS"
  let vIPI ← getTextE total ".//vIPI"
  let natOp ← getTextE ide "natOp"
  let tpNF ← getTextE ide "tpNF"
  pure
    { arquivo := basename path
      numero_nf := numero
      serie := serie
      data_emissao := pyOr dhEmi dEmi
      chave_acesso := chave
      emit_cnpj := emitCnpj
      emit_nome := emitNome
      emit_fantasia := emitFant
      dest_cnpj := pyOr destCnpj destCpf
      dest_nome := destNome
      valor_produtos := vProd
      valor_desconto := vDesc
      valor_frete := vFrete
      valor_total := vNF
      valor_icms := vICMS
      valor_ipi := vIPI
      natureza_operacao := natOp
      tipo_operacao := if tpNF = "0" then "Entrada" else "Saída"
      qtd_itens := countDesc "det" nfeInfo }

/-- `NFEParser.parse_xml_file` (lines 21-94).  The argument `parsed` is the
outcome of `etree.parse(file_path)`: `.error msg` when parsing raises (the
message being `str(e)`), `.ok root` with the document root otherwise.  The
whole body runs under `try/except Exception`, every caught exception becoming
the two-key error record. -/
def parseXmlFile (path : String) (parsed : Except String Xml) : Option Record :=
  match parsed with
  | .error e => some (.err (basename path) e)
  | .ok root =>
    let nfeInfo :=
      match findDesc (nsTag "infNFe") root with
      | some i => some i
      | none => findDesc "infNFe" (stripNs root)
    match nfeInfo with
    | none => none
    | some info =>
      match buildData path info with
      | .ok d => some (.ok d)
      | .error e => some (.err (basename path) e)

/-- A directory entry as seen by `process_folder`: the file's name (as listed
by `os.listdir`) together with the outcome of `etree.parse` on its content. -/
abbrev DirEntry := String × Except String Xml

/-- The folder argument of `process_folder`, as the OS layer presents it:
`missing` (`os.path.exists` is false), `notDir` (the path exists but
`os.listdir` raises `NotADirectoryError`), or a directory with its entries in
listing order. -/
inductive Folder where
  | missing
  | notDir
  | dir (entries : List DirEntry)

/-- The exceptions `process_folder` can raise: the `ValueError`s it raises
itself (the spec's `InvalidInputError`), and OS-level errors escaping from
`os.listdir`. -/
inductive BatchError where
  | valueError (msg : String)
  | osError (msg : String)
deriving DecidableEq, Repr

/-- The file filter of lines 132-136: name ends in `.xml` case-insensitively. -/
def isXmlName (name : String) : Bool := pyEnds (pyLower name) ".xml"

/-- The XML entries of a directory listing, in listing order. -/
def xmlEntries (entries : List DirEntry) : List DirEntry :=
  entries.filter fun e => isXmlName e.1

/-- Message of the `ValueError` of line 129. -/
def msgFolderNotFound (p : String) : String := "Pasta não encontrada: " ++ p

/-- Message of the `ValueError` of line 139. -/
def msgNoXml (p : String) : String := "Nenhum arquivo XML encontrado em: " ++ p

/-- `str(e)` of the `NotADirectoryError` that `os.listdir` raises on a
non-directory path. -/
def msgNotADirectory (p : String) : String :=
  "[Errno 20] Not a directory: " ++ p

/-- The loop of lines 142-145: call the extractor on each file, appending the
returned dict to `self.data` when it is truthy (`None` is skipped). -/
def collectRecords (folderPath : String) (files : List DirEntry)
    (acc : List Record) : List Record :=
  match files with
  | [] => acc
  | e :: rest =>
    match parseXmlFile (joinPath folderPath e.1) e.2 with
    | some r => collectRecords folderPath rest (acc ++ [r])
    | none => collectRecords folderPath rest acc

/-- The rows that a list of files contributes, in file order. -/
def extractedRows (folderPath : String) (files : List DirEntry) : List Record :=
  files.filterMap fun e => parseXmlFile (joinPath folderPath e.1) e.2

deriving instance DecidableEq for Except

/-- Outcome of one `process_folder` call on a parser instance: the value of
`self.data` after the call, and the returned table (its row records) or the
exception raised. -/
structure FolderOutcome where
  finalData : List Record
  result : Except BatchError (List Record)
deriving DecidableEq, Repr

/-- `NFEParser.process_folder` (lines 116-161) with the instance state made
explicit: `data0` is the value of `self.data` on entry, which line 126
(`self.data = []`) discards before any validation or processing.  The returned
table is modelled by its list of row records (`pd.DataFrame(self.data)` makes
one row per collected dict, in order; the later column coercions do not add,
drop or reorder rows). -/
def processFolderSt (data0 : List Record) (folderPath : String)
    (folder : Folder) : FolderOutcome :=
  let _ := data0
  let reset : List Record := []
  match folder with
  | .missing =>
    { finalData := reset
      result := .error (.valueError (msgFolderNotFound folderPath)) }
  | .notDir =>
    { finalData := reset
      result := .error (.osError (msgNotADirectory folderPath)) }
  | .dir entries =>
    let xmlFiles := xmlEntries entries
    if xmlFiles.isEmpty then
      { finalData := reset
        result := .error (.valueError (msgNoXml folderPath)) }
    else
      let rows := collectRecords folderPath xmlFiles reset
      { finalData := rows, result := .ok rows }

/-- `process_folder` on a fresh parser instance (`self.data == []`). -/
def processFolder (folderPath : String) (folder : Folder) :
    Except BatchError (List Record) :=
  (processFolderSt [] folderPath folder).result

/-- The six monetary columns coerced by lines 151-155. -/
def valueColumns : List String :=
  ["valor_produtos", "valor_desconto", "valor_frete",
   "valor_total", "valor_icms", "valor_ipi"]

/-- The raw cell of a row in one of the six monetary columns: error records
carry none of these columns (their cells are NaN in the DataFrame), success
records carry the extracted strings. -/
def Record.monCell : Record → String → Option String
  | .err _ _, _ => none
  | .ok d, c =>
    if c = "valor_produtos" then some d.valor_produtos
    else if c = "valor_desconto" then some d.valor_desconto
    else if c = "valor_frete" then some d.valor_frete
    else if c = "valor_total" then some d.valor_total
    else if c = "valor_icms" then some d.valor_icms
    else if c = "valor_ipi" then some d.valor_ipi
    else none

/-- `pd.to_numeric(x, errors='coerce')` on one cell value: a plain decimal
numeral (optional sign, optional fractional part, surrounding whitespace
allowed) is parsed to its rational value; everything else — in particular the
empty string — is coerced to NaN, modelled as `none`.  (Pandas additionally
accepts scientific notation and special spellings; the strings this pipeline
produces are either `''` or plain decimals, for which this grammar agrees
with pandas.) -/
def pdToNumeric (s : String) : Option Rat :=
  let t := (pyStrip s).data
  let sgn : Rat := if t.head? = some '-' then -1 else 1
  let body := if t.head? = some '-' || t.head? = some '+' then t.drop 1 else t
  let natVal : List Char → Nat :=
    fun l => l.foldl (fun a c => a * 10 + (c.toNat - 48)) 0
  match splitChar '.' body with
  | [ip] =>
    if !ip.isEmpty && ip.all Char.isDigit then
      some (sgn * (natVal ip : Rat))
    else none
  | [ip, fp] =>
    if (!ip.isEmpty || !fp.isEmpty) && ip.all Char.isDigit
        && fp.all Char.isDigit then
      some (sgn * ((natVal ip * 10 ^ fp.length + natVal fp : Nat) : Rat)
        / ((10 ^ fp.length : Nat) : Rat))
    else none
  | _ => none

/-- Whether a monetary column exists in the DataFrame at all (the
`if col in df.columns` guard of line 154): the column set is the union of the
keys of all row dicts. -/
def colPresent (rows : List Record) (c : String) : Bool :=
  rows.any fun r => (r.monCell c).isSome

/-- A cell of the table after the coercion pass of lines 151-155: when the
column exists, `pd.to_numeric(..., errors='coerce')` is applied to each of its
cells (absent cells are NaN and stay NaN); when it does not, the row has no
such cell. -/
def coercedMonCell (rows : List Record) (r : Record) (c : String) : Option Rat :=
  if colPresent rows c then (r.monCell c).bind pdToNumeric else none

/-! ## Concrete sample documents used by witnesses and counterexamples -/

/-- A namespace-free invoice document: `NFe » infNFe[Id="NFe3512"] » ide`
with `nNF = 100` and `tpNF = 0`, and no `total` block. -/
def sampleDoc : Xml :=
  xmlE "NFe" [] none [
    xmlE "infNFe" [("Id", "NFe3512")] none [
      xmlE "ide" [] none [
        xmlE "nNF" [] (some "100") [],
        xmlE "tpNF" [] (some "0") []]]]

/-- The record `parse_xml_file` extracts from `sampleDoc` at path `p/a.xml`. -/
def sampleData : NfeData :=
  { arquivo := "a.xml", numero_nf := "100", serie := "", data_emissao := "",
    chave_acesso := "3512", emit_cnpj := "", emit_nome := "",
    emit_fantasia := "", dest_cnpj := "", dest_nome := "",
    valor_produtos := "", valor_desconto := "", valor_frete := "",
    valor_total := "", valor_icms := "", valor_ipi := "",
    natureza_operacao := "", tipo_operacao := "Entrada", qtd_itens := 0 }

/-- The record `parse_xml_file` extracts from the namespaced twin
`nsify nfeNamespace sampleDoc`: the `Id` attribute is still read, but every
child-element lookup misses. -/
def sampleNsData : NfeData :=
  { sampleData with numero_nf := "", tipo_operacao := "Saída" }

/-- A well-formed XML document with no `infNFe` anywhere (not an invoice). -/
def unrecDoc : Xml :=
  xmlE "recibo" [] none [xmlE "numero" [] (some "1") []]

/-- A namespace-free invoice document that does contain a `total` block. -/
def totalDoc : Xml :=
  xmlE "NFe" [] none [
    xmlE "infNFe" [("Id", "NFe77")] none [
      xmlE "ide" [] none [xmlE "nNF" [] (some "7") []],
      xmlE "total" [] none [
        xmlE "ICMSTot" [] none [xmlE "vNF" [] (some "150.50") []]]]]

/-- A document whose `Id` attribute contains `NFe` beyond the prefix. -/
def c8Doc : Xml :=
  xmlE "NFe" [] none [
    xmlE "infNFe" [("Id", "NFe12NFe34")] none [
      xmlE "ide" [] none [xmlE "nNF" [] (some "7") []]]]

/-- The record `parse_xml_file` extracts from `c8Doc` at path `p/a.xml`. -/
def c8Data : NfeData :=
  { sampleData with
      numero_nf := "7"
      chave_acesso := "1234"
      tipo_operacao := "Saída" }

/-- Whether a `process_folder` outcome is the typed invalid-input failure
(the `ValueError` the function raises itself). -/
def isValueError : Except BatchError (List Record) → Bool
  | .error (.valueError _) => true
  | _ => false

/-- The spec's way of locating blocks inside the invoice-information node:
lookup "by local name", i.e. ignoring any namespace qualification.  (This is
a specification-side definition, used to state what the spec asks for; the
code's own inner lookups use the qualified tag directly.) -/
def findByLocalName (tag : String) (x : Xml) : Option Xml :=
  findDesc tag (stripNs x)

/-- Specification-side reading of claim C8: the literal prefix `NFe` is
stripped from the front of the attribute value when present, and the value is
otherwise unchanged. -/
def specDropNFeFront (s : String) : String :=
  if pyBegins s "NFe" then ⟨s.data.drop 3⟩ else s

/-! ## General lemmas about the embedding -/

theorem strData_append (a b : String) : (a ++ b).data = a.data ++ b.data := by
  cases a; cases b; rfl

theorem msg_distinct (p : String) : msgFolderNotFound p ≠ msgNoXml p := by
  intro h
  have h2 := congrArg (fun s => s.data.length) h
  simp only [msgFolderNotFound, msgNoXml] at h2
  rw [strData_append, strData_append, List.length_append, List.length_append] at h2
  have e1 : "Pasta não encontrada: ".data.length = 22 := by decide
  have e2 : "Nenhum arquivo XML encontrado em: ".data.length = 34 := by decide
  rw [e1, e2] at h2
  omega

/-- Closed form of `parse_xml_file` on a successfully parsed document. -/
theorem parseXmlFile_ok (path : String) (root : Xml) :
    parseXmlFile path (.ok root) =
      match (match findDesc (nsTag "infNFe") root with
        | some i => some i
        | none => findDesc "infNFe" (stripNs root)) with
      | none => none
      | some info =>
        match buildData path info with
        | .ok d => some (.ok d)
        | .error e => some (.err (basename path) e) := rfl

/-- Closed form of `buildData`: each non-monetary field lookup uses a
well-formed pattern and cannot raise, while each monetary lookup raises
`SyntaxError('invalid descendant')` as soon as the `total` block was found,
the first of them (line 72) aborting the dict construction. -/
theorem buildData_eq (path : String) (info : Xml) :
    buildData path info =
      match findDesc "total" info with
      | some _ => .error "invalid descendant"
      | none =>
        .ok
          { arquivo := basename path
            numero_nf := getText (findDesc "ide" info) "nNF"
            serie := getText (findDesc "ide" info) "serie"
            data_emissao := pyOr (getText (findDesc "ide" info) "dhEmi")
              (getText (findDesc "ide" info) "dEmi")
            chave_acesso := pyRemoveNFe ((info.attrs.lookup "Id").getD "")
            emit_cnpj := getText (findDesc "emit" info) "CNPJ"
            emit_nome := getText (findDesc "emit" info) "xNome"
            emit_fantasia := getText (findDesc "emit" info) "xFant"
            dest_cnpj := pyOr (getText (findDesc "dest" info) "CNPJ")
              (getText (findDesc "dest" info) "CPF")
            dest_nome := getText (findDesc "dest" info) "xNome"
            valor_produtos := ""
            valor_desconto := ""
            valor_frete := ""
            valor_total := ""
            valor_icms := ""
            valor_ipi := ""
            natureza_operacao := getText (findDesc "ide" info) "natOp"
            tipo_operacao :=
              if getText (findDesc "ide" info) "tpNF" = "0" then "Entrada"
              else "Saída"
            qtd_itens := countDesc "det" info } := by
  unfold buildData
  cases findDesc "ide" info <;> cases findDesc "emit" info <;>
    cases findDesc "dest" info <;> cases findDesc "total" info <;> rfl

theorem collectRecords_eq (p : String) (files : List DirEntry)
    (acc : List Record) :
    collectRecords p files acc = acc ++ extractedRows p files := by
  induction files generalizing acc with
  | nil => simp [collectRecords, extractedRows]
  | cons e rest ih =>
    simp only [collectRecords, extractedRows, List.filterMap_cons]
    cases h : parseXmlFile (joinPath p e.1) e.2 with
    | none => simp only [h]; exact ih acc
    | some r =>
      simp only [h]
      rw [ih (acc ++ [r])]
      simp [extractedRows]

theorem processFolderSt_dir (data0 : List Record) (p : String)
    (entries : List DirEntry) :
    processFolderSt data0 p (.dir entries) =
      if (xmlEntries entries).isEmpty then
        ⟨[], .error (.valueError (msgNoXml p))⟩
      else
        ⟨extractedRows p (xmlEntries entries),
          .ok (extractedRows p (xmlEntries entries))⟩ := by
  simp only [processFolderSt]
  split
  · rfl
  · rw [collectRecords_eq]
    simp

theorem length_extractedRows (p : String) (files : List DirEntry) :
    (extractedRows p files).length =
      (files.filter fun e => (parseXmlFile (joinPath p e.1) e.2).isSome).length := by
  induction files with
  | nil => rfl
  | cons e rest ih =>
    simp only [extractedRows, List.filterMap_cons, List.filter_cons]
    cases h : parseXmlFile (joinPath p e.1) e.2 with
    | none => simpa [h, extractedRows] using ih
    | some r => simpa [h, extractedRows] using ih

/-- Elimination form for a successful extraction: the invoice-information
node was found (by the namespaced lookup, or by the plain lookup after
stripping), the document has no `total` block (otherwise the monetary lookup
raises and the result is an error record), and the record is determined
field by field. -/
theorem parseXmlFile_ok_elim (path : String) (root : Xml) (d : NfeData)
    (h : parseXmlFile path (.ok root) = some (.ok d)) :
    ∃ info,
      (findDesc (nsTag "infNFe") root = some info ∨
        (findDesc (nsTag "infNFe") root = none ∧
          findDesc "infNFe" (stripNs root) = some info)) ∧
      findDesc "total" info = none ∧
      d = { arquivo := basename path
            numero_nf := getText (findDesc "ide" info) "nNF"
            serie := getText (findDesc "ide" info) "serie"
            data_emissao := pyOr (getText (findDesc "ide" info) "dhEmi")
              (getText (findDesc "ide" info) "dEmi")
            chave_acesso := pyRemoveNFe ((info.attrs.lookup "Id").getD "")
            emit_cnpj := getText (findDesc "emit" info) "CNPJ"
            emit_nome := getText (findDesc "emit" info) "xNome"
            emit_fantasia := getText (findDesc "emit" info) "xFant"
            dest_cnpj := pyOr (getText (findDesc "dest" info) "CNPJ")
              (getText (findDesc "dest" info) "CPF")
            dest_nome := getText (findDesc "dest" info) "xNome"
            valor_produtos := ""
            valor_desconto := ""
            valor_frete := ""
            valor_total := ""
            valor_icms := ""
            valor_ipi := ""
            natureza_operacao := getText (findDesc "ide" info) "natOp"
            tipo_operacao :=
              if getText (findDesc "ide" info) "tpNF" = "0" then "Entrada"
              else "Saída"
            qtd_itens := countDesc "det" info } := by
  rw [parseXmlFile_ok] at h
  cases hns : findDesc (nsTag "infNFe") root with
  | some info =>
    refine ⟨info, .inl rfl, ?_⟩
    rw [hns] at h
    simp only [buildData_eq] at h
    cases ht : findDesc "total" info with
    | some t => simp [ht] at h
    | none =>
      simp only [ht] at h
      simp only [Option.some.injEq, Record.ok.injEq] at h
      exact ⟨rfl, h.symm⟩
  | none =>
    rw [hns] at h
    cases hloc : findDesc "infNFe" (stripNs root) with
    | none => simp [hloc] at h
    | some info =>
      refine ⟨info, .inr ⟨rfl, rfl⟩, ?_⟩
      rw [hloc] at h
      simp only [buildData_eq] at h
      cases ht : findDesc "total" info with
      | some t => simp [ht] at h
      | none =>
        simp only [ht] at h
        simp only [Option.some.injEq, Record.ok.injEq] at h
        exact ⟨rfl, h.symm⟩

/-! ## The claims -/

/-- C1: for every input file, `parse_xml_file` never raises to its caller:
a parse failure is returned as the error record holding exactly the file's
base name and the exception's message, and every other outcome is either no
record or a success record or an error record carrying the base name and an
exception message. -/
theorem claim_C1 (path : String) (parsed : Except String Xml) :
    (∀ msg, parsed = .error msg →
        parseXmlFile path parsed = some (.err (basename path) msg)) ∧
    (parseXmlFile path parsed = none ∨
      (∃ d, parseXmlFile path parsed = some (.ok d)) ∨
      (∃ msg, parseXmlFile path parsed = some (.err (basename path) msg))) := by
  constructor
  · rintro msg rfl
    rfl
  · cases parsed with
    | error e => exact .inr (.inr ⟨e, rfl⟩)
    | ok root =>
      rw [parseXmlFile_ok]
      cases hinfo : (match findDesc (nsTag "infNFe") root with
          | some i => some i
          | none => findDesc "infNFe" (stripNs root)) with
      | none => exact .inl rfl
      | some info =>
        cases hb : buildData path info with
        | ok d => exact .inr (.inl ⟨d, by simp [hb]⟩)
        | error e => exact .inr (.inr ⟨e, by simp [hb]⟩)

/-- Witness for C1 at a concrete failing parse. -/
theorem claim_C1_witness :
    parseXmlFile "notas/a.xml" (.error "Document is empty") =
      some (.err "a.xml" "Document is empty") :=
  (claim_C1 "notas/a.xml" (.error "Document is empty")).1 "Document is empty" rfl

/-- C2: `process_folder` raises its typed invalid-input failure (`ValueError`)
in exactly two batch-level cases — the path does not exist, or the listing
has no name ending in `.xml` case-insensitively — processing no file (the
record buffer stays empty), and the two messages are distinct for every
path. -/
theorem claim_C2 (data0 : List Record) (p : String) (folder : Folder) :
    (folder = .missing →
      processFolderSt data0 p folder =
        ⟨[], .error (.valueError (msgFolderNotFound p))⟩) ∧
    (∀ entries, folder = .dir entries → xmlEntries entries = [] →
      processFolderSt data0 p folder =
        ⟨[], .error (.valueError (msgNoXml p))⟩) ∧
    (∀ m, (processFolderSt data0 p folder).result = .error (.valueError m) →
      folder = .missing ∨
        ∃ entries, folder = .dir entries ∧ xmlEntries entries = []) ∧
    msgFolderNotFound p ≠ msgNoXml p := by
  refine ⟨?_, ?_, ?_, msg_distinct p⟩
  · rintro rfl
    rfl
  · rintro entries rfl hempty
    rw [processFolderSt_dir, if_pos]
    rw [hempty]
    rfl
  · intro m hm
    cases folder with
    | missing => exact .inl rfl
    | notDir => simp [processFolderSt] at hm
    | dir entries =>
      rw [processFolderSt_dir] at hm
      by_cases he : (xmlEntries entries).isEmpty = true
      · exact .inr ⟨entries, rfl, List.isEmpty_iff.mp he⟩
      · rw [if_neg he] at hm
        simp at hm

/-- Witness for C2 at a concrete missing folder. -/
theorem claim_C2_witness :
    processFolderSt [] "notas" .missing =
      ⟨[], .error (.valueError (msgFolderNotFound "notas"))⟩ ∧
    msgFolderNotFound "notas" ≠ msgNoXml "notas" :=
  ⟨(claim_C2 [] "notas" .missing).1 rfl, (claim_C2 [] "notas" .missing).2.2.2⟩

/-- C3 (code bug): the claim asks that a record be `Entrada` (Inbound)
exactly when the identification block's `tpNF` has trimmed text `"0"`.  On
the namespaced sample document the identification block (located by local
name, as the spec specifies block lookup) has `tpNF` text `"0"`, yet the
extracted record says `Saída`: the code's inner lookups use unqualified tags,
which never match inside a namespaced document. -/
theorem claim_C3 :
    getTextE (findByLocalName "ide" (nsify nfeNamespace sampleDoc)) "tpNF" =
      .ok "0" ∧
    parseXmlFile "p/a.xml" (.ok (nsify nfeNamespace sampleDoc)) =
      some (.ok sampleNsData) ∧
    sampleNsData.tipo_operacao = "Saída" :=
  ⟨rfl, rfl, rfl⟩

/-- C4: a file that parses but has no recognizable invoice-information node
(neither by the namespaced lookup nor after stripping) yields no record, and
the batch contributes no row for it: the rows of any folder containing it are
exactly the rows of the other files. -/
theorem claim_C4 (p name : String) (root : Xml) (pre post : List DirEntry)
    (hxml : isXmlName name = true)
    (hns : findDesc (nsTag "infNFe") root = none)
    (hlocal : findDesc "infNFe" (stripNs root) = none) :
    parseXmlFile (joinPath p name) (.ok root) = none ∧
    processFolder p (.dir (pre ++ (name, Except.ok root) :: post)) =
      .ok (extractedRows p (xmlEntries pre) ++ extractedRows p (xmlEntries post)) := by
  have hparse : parseXmlFile (joinPath p name) (.ok root) = none := by
    rw [parseXmlFile_ok, hns, hlocal]
  refine ⟨hparse, ?_⟩
  have hfilter : xmlEntries (pre ++ (name, Except.ok root) :: post) =
      xmlEntries pre ++ (name, Except.ok root) :: xmlEntries post := by
    simp [xmlEntries, List.filter_append, List.filter_cons, hxml]
  have hne : (xmlEntries (pre ++ (name, Except.ok root) :: post)).isEmpty = false := by
    rw [hfilter]
    cases xmlEntries pre <;> rfl
  unfold processFolder
  rw [processFolderSt_dir, if_neg (by rw [hne]; exact Bool.false_ne_true)]
  simp only [hfilter, extractedRows, List.filterMap_append, List.filterMap_cons]
  simp [hparse]

/-- Witness for C4 at a concrete unrecognizable document. -/
theorem claim_C4_witness :
    parseXmlFile "p/c.xml" (.ok unrecDoc) = none ∧
    processFolder "p" (.dir [("c.xml", Except.ok unrecDoc)]) = .ok [] := by
  have h := claim_C4 "p" "c.xml" unrecDoc [] [] rfl rfl rfl
  exact ⟨h.1, h.2⟩

/-- C5 (counterexample): a folder whose one XML file parses but is not a
recognizable invoice gives a successful run with zero rows while one XML
file was discovered — the row count does not equal the file count. -/
theorem claim_C5_counterexample :
    processFolder "p" (.dir [("c.xml", Except.ok unrecDoc)]) = .ok [] ∧
    (xmlEntries [("c.xml", Except.ok unrecDoc)]).length = 1 ∧
    ([] : List Record).length ≠
      (xmlEntries [("c.xml", Except.ok unrecDoc)]).length :=
  ⟨rfl, rfl, by decide⟩

/-- C5 (amended): on a successful run the row count equals the number of
discovered XML files whose extraction returned a record (success or error);
files whose extraction returned no record are omitted, so the row count never
exceeds the XML file count. -/
theorem claim_C5_amended (p : String) (entries : List DirEntry)
    (rows : List Record)
    (h : processFolder p (.dir entries) = .ok rows) :
    rows.length = ((xmlEntries entries).filter
      (fun e => (parseXmlFile (joinPath p e.1) e.2).isSome)).length ∧
    rows.length ≤ (xmlEntries entries).length := by
  unfold processFolder at h
  rw [processFolderSt_dir] at h
  by_cases he : (xmlEntries entries).isEmpty = true
  · rw [if_pos he] at h
    simp at h
  · rw [if_neg he] at h
    simp only at h
    have hrows : rows = extractedRows p (xmlEntries entries) :=
      (Except.ok.inj h).symm
    subst hrows
    refine ⟨length_extractedRows p (xmlEntries entries), ?_⟩
    rw [length_extractedRows]
    exact List.length_filter_le _ _

/-- Witness for C5 (amended) at a concrete folder with one recognizable and
one unrecognizable document. -/
theorem claim_C5_amended_witness :
    ([Record.ok sampleData] : List Record).length =
      ((xmlEntries [("a.xml", Except.ok sampleDoc), ("c.xml", Except.ok unrecDoc)]).filter
        (fun e => (parseXmlFile (joinPath "p" e.1) e.2).isSome)).length ∧
    ([Record.ok sampleData] : List Record).length ≤
      (xmlEntries [("a.xml", Except.ok sampleDoc), ("c.xml", Except.ok unrecDoc)]).length :=
  claim_C5_amended "p"
    [("a.xml", Except.ok sampleDoc), ("c.xml", Except.ok unrecDoc)]
    [Record.ok sampleData] rfl

/-- C6 (code bug): the namespace-free sample document and its namespaced twin
do not extract to the same record: the twin loses every child-element field
(`numero_nf` becomes empty, `tipo_operacao` flips to `Saída`), because the
inner lookups use unqualified tags. -/
theorem claim_C6 :
    parseXmlFile "p/a.xml" (.ok sampleDoc) = some (.ok sampleData) ∧
    parseXmlFile "p/a.xml" (.ok (nsify nfeNamespace sampleDoc)) =
      some (.ok sampleNsData) ∧
    sampleData ≠ sampleNsData := by
  refine ⟨rfl, rfl, ?_⟩
  decide

/-- C7: after the coercion pass, a monetary cell whose original string fails
numeric parsing (in particular the empty string) is null — never zero — and a
cell whose original string parses becomes its numeric value. -/
theorem claim_C7 (p : String) (folder : Folder) (rows : List Record)
    (r : Record) (c : String) (s : String)
    (_hrun : processFolder p folder = .ok rows)
    (hrow : r ∈ rows) (_hcol : c ∈ valueColumns)
    (hcell : r.monCell c = some s) :
    (pdToNumeric s = none →
      coercedMonCell rows r c = none ∧ coercedMonCell rows r c ≠ some 0) ∧
    (∀ v, pdToNumeric s = some v → coercedMonCell rows r c = some v) ∧
    pdToNumeric "" = none := by
  have hpres : colPresent rows c = true := by
    apply List.any_eq_true.mpr
    exact ⟨r, hrow, by rw [hcell]; rfl⟩
  have hcc : coercedMonCell rows r c = pdToNumeric s := by
    unfold coercedMonCell
    rw [if_pos hpres, hcell]
    rfl
  refine ⟨?_, ?_, rfl⟩
  · intro hnone
    rw [hcc, hnone]
    exact ⟨rfl, by simp⟩
  · intro v hv
    rw [hcc, hv]

/-- Witness for C7: in a run over the sample folder, the success row's
`valor_total` cell was originally the empty string and is null after
coercion. -/
theorem claim_C7_witness :
    coercedMonCell [Record.ok sampleData] (Record.ok sampleData)
      "valor_total" = none ∧
    coercedMonCell [Record.ok sampleData] (Record.ok sampleData)
      "valor_total" ≠ some 0 :=
  (claim_C7 "p" (.dir [("a.xml", Except.ok sampleDoc)])
    [Record.ok sampleData] (Record.ok sampleData) "valor_total" ""
    rfl (by simp) (by simp [valueColumns]) rfl).1 rfl

/-- C8 (counterexample): on a document whose `Id` attribute is
`NFe12NFe34`, the code removes every occurrence of the substring `NFe`
(yielding `1234`), while the claim's prefix-stripping reading predicts
`12NFe34`. -/
theorem claim_C8_counterexample :
    parseXmlFile "p/a.xml" (.ok c8Doc) = some (.ok c8Data) ∧
    (findDesc "infNFe" (stripNs c8Doc)).map
      (fun i => (i.attrs.lookup "Id").getD "") = some "NFe12NFe34" ∧
    specDropNFeFront "NFe12NFe34" = "12NFe34" ∧
    c8Data.chave_acesso = "1234" ∧
    c8Data.chave_acesso ≠ specDropNFeFront "NFe12NFe34" := by
  refine ⟨rfl, rfl, rfl, rfl, ?_⟩
  decide

/-- C8 (amended): for every successfully extracted record, `access_key` is
the `Id` attribute of the invoice-information node (empty when absent) with
every occurrence of the substring `NFe` removed — which equals prefix
stripping on standard keys, where `NFe` can only occur as the leading
prefix. -/
theorem claim_C8_amended (path : String) (root : Xml) (d : NfeData)
    (h : parseXmlFile path (.ok root) = some (.ok d)) :
    ∃ info,
      (findDesc (nsTag "infNFe") root = some info ∨
        findDesc "infNFe" (stripNs root) = some info) ∧
      d.chave_acesso = pyRemoveNFe ((info.attrs.lookup "Id").getD "") := by
  obtain ⟨info, hfound, -, hd⟩ := parseXmlFile_ok_elim path root d h
  refine ⟨info, ?_, by rw [hd]⟩
  rcases hfound with h1 | ⟨-, h2⟩
  · exact .inl h1
  · exact .inr h2

/-- Witness for C8 (amended) at the concrete counterexample document. -/
theorem claim_C8_amended_witness :
    c8Data.chave_acesso = pyRemoveNFe "NFe12NFe34" := by
  obtain ⟨info, hfound, hchave⟩ := claim_C8_amended "p/a.xml" c8Doc c8Data rfl
  rcases hfound with h1 | h2
  · rw [show findDesc (nsTag "infNFe") c8Doc = none from rfl] at h1
    cases h1
  · have h3 := congrArg
      (fun o => (Option.map (fun i => (i.attrs.lookup "Id").getD "") o).getD "") h2
    simp only [Option.map_some', Option.getD_some] at h3
    rw [hchave, ← h3]
    rfl

/-- C9 (counterexample): on a path that exists but is not a directory,
`process_folder` does not fail with its typed invalid-input `ValueError`: the
`NotADirectoryError` from `os.listdir` propagates instead (the not-a-directory
check lives in the caller `app.py`, before `process_folder` is invoked). -/
theorem claim_C9_counterexample :
    processFolder "nota.xml" .notDir =
      .error (.osError (msgNotADirectory "nota.xml")) ∧
    isValueError (processFolder "nota.xml" .notDir) = false :=
  ⟨rfl, rfl⟩

/-- C9 (amended): on an existing non-directory path `process_folder` fails
with the OS-level not-a-directory error, which is not the `ValueError`
invalid-input kind, and processes no file. -/
theorem claim_C9_amended (data0 : List Record) (p : String) :
    processFolderSt data0 p .notDir =
      ⟨[], .error (.osError (msgNotADirectory p))⟩ ∧
    isValueError (processFolderSt data0 p .notDir).result = false :=
  ⟨rfl, rfl⟩

/-- C10: `process_folder` resets the record buffer (`self.data = []`) before
any processing, so its entire outcome — final buffer and returned table — is
independent of whatever an earlier invocation on the same instance left in
the buffer. -/
theorem claim_C10 (data0 data0' : List Record) (p : String) (folder : Folder) :
    processFolderSt data0 p folder = processFolderSt data0' p folder := rfl
